import Mathlib

/-!
Shallow embedding of the `fabric-rti-mcp` repository's two tool modules,
`fabric_rti_mcp/tools/lakehouse_sql_tool.py` and
`fabric_rti_mcp/tools/semantic_model_service.py`.

Modelling conventions:
* A Python function body is a Lean function returning `Except PyErr α`;
  a raised exception is `Except.error`, a normal return is `Except.ok`.
  A body that falls off its end returns Python `None`, modelled by an
  `Option` result (`Except.ok none`).
* Environment variables are an explicit `Env` record of `Option String`
  (`none` = unset).  Python truthiness of such a value (`if not X`) is
  `truthy`: `none` and the empty string are falsy.
* External effects (ODBC, pyadomd, HTTP, the `az` CLI) are oracles passed
  in as records of outcomes; the code under verification is everything
  around them, translated statement by statement from the source.
* JSON values handled by `semantic_model_service.py` are the `JVal`
  inductive, with Python subscript / `.get` / `len` / `in` semantics
  modelled as `Except`-returning helpers that raise the corresponding
  Python error on a type mismatch.
-/

/-- Python exception values, tagged by their class and carrying the message. -/
inductive PyErr where
  | runtimeError (msg : String)
  | valueError (msg : String)
  | attributeError (msg : String)
  | typeError (msg : String)
  | keyError (msg : String)
  | indexError (msg : String)
  | importError (msg : String)
  | nameError (msg : String)
  | exception (msg : String)
deriving DecidableEq, Repr

/-- Scalar cell values appearing in SQL result rows (`None`, ints, strings, bools). -/
inductive PyVal where
  | vnone
  | vint (n : Int)
  | vstr (s : String)
  | vbool (b : Bool)
deriving DecidableEq, Repr

/-- A fetched SQL row: Python tuple of scalars. -/
abbrev PyRow := List PyVal

/-- Boolean `isOk` test for `Except` results. -/
def isOkE {α : Type} : Except PyErr α → Bool
  | .ok _ => true
  | .error _ => false

/-- Whether the first character list starts the second one. -/
def startsList : List Char → List Char → Bool
  | [], _ => true
  | _ :: _, [] => false
  | a :: as, b :: bs => a == b && startsList as bs

/-- Whether the first character list occurs contiguously inside the second. -/
def subOfList (needle : List Char) : List Char → Bool
  | [] => needle.isEmpty
  | c :: rest => startsList needle (c :: rest) || subOfList needle rest

/-- Python substring test `needle in hay` on strings. -/
def containsSub (hay needle : String) : Bool :=
  subOfList needle.toList hay.toList

/-- The environment variables read by the two modules (`os.getenv`; `none` = unset). -/
structure Env where
  sqlEndpoint : Option String
  lakehouseName : Option String
  semanticModelConnection : Option String
  workspaceId : Option String
deriving DecidableEq, Repr

/-- ASCII lowering of a string, character by character (the behaviour of
Python `str.lower()` on the ASCII names occurring here); defined by
structural recursion over the character list so that it reduces. -/
def strLower (s : String) : String :=
  ⟨s.data.map Char.toLower⟩

/-- Python truthiness of an optional environment string: unset and `""` are falsy. -/
def truthy : Option String → Bool
  | none => false
  | some s => !s.isEmpty

/-- `validate_config` (lakehouse_sql_tool.py, lines 151-160): collects the names of
the falsy ones among `FABRIC_SQL_ENDPOINT`, `FABRIC_LAKEHOUSE_NAME`,
`FABRIC_SEMANTIC_MODEL_CONNECTION` and, if any, raises one `RuntimeError`
listing them all.  `FABRIC_WORKSPACE_ID` is not checked here. -/
def validate_config (env : Env) : Except PyErr Unit :=
  let missing : List String :=
    (if truthy env.sqlEndpoint = false then ["FABRIC_SQL_ENDPOINT"] else [])
    ++ (if truthy env.lakehouseName = false then ["FABRIC_LAKEHOUSE_NAME"] else [])
    ++ (if truthy env.semanticModelConnection = false then ["FABRIC_SEMANTIC_MODEL_CONNECTION"] else [])
  if missing.isEmpty then .ok ()
  else .error (.runtimeError
    ("Missing required environment variables: " ++ String.intercalate ", " missing
      ++ ". Please set them in your .env file."))

/-- Python `a or b` on an optional string: the left operand when truthy, else the default. -/
def pyOrStr (o : Option String) (d : String) : String :=
  match o with
  | none => d
  | some s => if s.isEmpty then d else s

/-- `get_semantic_model_connection` (lakehouse_sql_tool.py, lines 180-190):
validates the configuration, then takes `SEMANTIC_MODEL_CONNECTION or
"powerbi://api.powerbi.com/v1.0/myorg/HMCClinic2026"`, and raises `ValueError`
if the result is still falsy. -/
def get_semantic_model_connection (env : Env) : Except PyErr String :=
  match validate_config env with
  | .error e => .error e
  | .ok _ =>
    let conn_str := pyOrStr env.semanticModelConnection
      "powerbi://api.powerbi.com/v1.0/myorg/HMCClinic2026"
    if conn_str.isEmpty then
      .error (.valueError "FABRIC_SEMANTIC_MODEL_CONNECTION must be set")
    else .ok conn_str

theorem validate_config_ok_iff (env : Env) :
    validate_config env = .ok () ↔
      (truthy env.sqlEndpoint = true ∧ truthy env.lakehouseName = true
        ∧ truthy env.semanticModelConnection = true) := by
  cases hs : truthy env.sqlEndpoint <;> cases hl : truthy env.lakehouseName <;>
    cases hc : truthy env.semanticModelConnection <;>
      simp [validate_config, hs, hl, hc]

theorem validate_config_ok_shape (env : Env) (u : Unit)
    (h : validate_config env = .ok u) :
    truthy env.sqlEndpoint = true ∧ truthy env.lakehouseName = true
      ∧ truthy env.semanticModelConnection = true := by
  exact (validate_config_ok_iff env).mp h

/-- Every error raised by `validate_config` is a `RuntimeError`. -/
theorem validate_config_error_shape (env : Env) (e : PyErr)
    (h : validate_config env = .error e) : ∃ msg, e = .runtimeError msg := by
  cases hs : truthy env.sqlEndpoint <;> cases hl : truthy env.lakehouseName <;>
    cases hc : truthy env.semanticModelConnection <;>
      simp [validate_config, hs, hl, hc] at h <;>
        exact ⟨_, h.symm⟩

/-- An ODBC connection object as `pyodbc.connect` would produce it.  In the
source as it stands no reachable statement ever constructs one: the
`pyodbc.connect` call sits in the unreachable tail (lines 261-295) stranded
inside `semantic_model_list_relationships`. -/
structure PyConn where
  server : String
  database : String
deriving DecidableEq, Repr

/-- How many times a call opened and closed an ODBC connection. -/
structure ConnTrace where
  opens : Nat
  closes : Nat
deriving DecidableEq, Repr

/-- `_get_connection` (lakehouse_sql_tool.py, lines 164-178): the body is the
docstring, `global _credential`, `validate_config()` and two local
assignments (`sql_endpoint = SQL_ENDPOINT`, `database = LAKEHOUSE_NAME`),
after which the function ends.  The credential/token/`pyodbc.connect` code
that was meant to follow is lines 261-295 of the file, which sit inside
`semantic_model_list_relationships` after its `return`/`raise`.  So the body
either propagates the `RuntimeError` of `validate_config` or falls off its
end and returns Python `None`. -/
def _get_connection (env : Env) : Except PyErr (Option PyConn) :=
  match validate_config env with
  | .error e => .error e
  | .ok _ => .ok none

/-- Outcomes of the ODBC operations `lakehouse_sql_query` would perform on a
real connection (`conn.cursor()`, `cursor.execute("SET LOCK_TIMEOUT 30000;")`,
`cursor.execute(query)` + `cursor.fetchall()`). -/
structure SqlWorld where
  cursorOutcome : PyConn → Except PyErr Unit
  lockTimeoutOutcome : PyConn → Except PyErr Unit
  runQuery : PyConn → String → Except PyErr (List PyRow)

/-- `lakehouse_sql_query` (lakehouse_sql_tool.py, lines 298-324):
`conn = _get_connection()`; `conn.timeout = timeout`; then a
`try: ... fetchall ... return / except: raise / finally: conn.close()` block.
Since `_get_connection` returns `None`, the attribute assignment
`conn.timeout = timeout` (line 311, before the `try`) raises
`AttributeError`; the `try`/`finally` is never entered, so no connection is
closed (and none was ever opened).  The `some conn` branch translates the
`try`/`finally`, every path of which closes the connection exactly once. -/
def lakehouse_sql_query (env : Env) (world : SqlWorld) (query : String)
    (_timeout : Int) : Except PyErr (List PyRow) × ConnTrace :=
  match _get_connection env with
  | .error e => (.error e, ⟨0, 0⟩)
  | .ok none =>
    (.error (.attributeError "NoneType object has no attribute timeout"), ⟨0, 0⟩)
  | .ok (some conn) =>
    let body : Except PyErr (List PyRow) :=
      match world.cursorOutcome conn with
      | .error e => .error e
      | .ok _ =>
        match world.lockTimeoutOutcome conn with
        | .error e => .error e
        | .ok _ => world.runQuery conn query
    (body, ⟨1, 1⟩)

/-- Reachable code never produces a connection: `_get_connection` either
raises or returns `None`. -/
theorem _get_connection_never_some (env : Env) (c : PyConn) :
    _get_connection env ≠ .ok (some c) := by
  unfold _get_connection
  cases h : validate_config env <;> simp

/-- The fixed catalog query of `lakehouse_list_tables` (lines 334-341). -/
def listTablesQuery : String :=
  "\n        SELECT \n            s.name AS schema_name,\n            t.name AS table_name\n        FROM sys.tables t\n        INNER JOIN sys.schemas s ON t.schema_id = s.schema_id\n        ORDER BY s.name, t.name\n    "

/-- The fixed catalog query of `lakehouse_list_tables_v2` (lines 106-117). -/
def listTablesV2Query : String :=
  "\n        SELECT \n            s.name AS schema_name,\n            t.name AS table_name,\n            ISNULL(SUM(p.rows), 0) AS row_count\n        FROM sys.tables t\n        INNER JOIN sys.schemas s ON t.schema_id = s.schema_id\n        INNER JOIN sys.partitions p ON t.object_id = p.object_id\n        WHERE p.index_id IN (0, 1)  -- heap or clustered index\n        GROUP BY s.name, t.name\n        ORDER BY s.name, t.name\n    "

/-- Python tuple indexing `row[i]` for the non-negative indices used here:
`IndexError` when out of range. -/
def pyTupleIdx (row : PyRow) (i : Nat) : Except PyErr PyVal :=
  match row.get? i with
  | some v => .ok v
  | none => .error (.indexError "tuple index out of range")

/-- Strip leading and trailing whitespace from a character list. -/
def pyTrim (cs : List Char) : List Char :=
  ((cs.dropWhile Char.isWhitespace).reverse.dropWhile Char.isWhitespace).reverse

/-- Accumulate the value of a non-empty all-digit character list; `none` as
soon as a non-digit appears. -/
def digitsValAux (acc : Nat) : List Char → Option Nat
  | [] => some acc
  | c :: rest =>
    if c.isDigit then digitsValAux (acc * 10 + (c.toNat - 48)) rest else none

/-- Value of a non-empty all-digit character list. -/
def digitsVal : List Char → Option Nat
  | [] => none
  | cs => digitsValAux 0 cs

/-- Python `int(...)` on a string: optional surrounding whitespace, optional
sign, decimal digits; `none` when `int()` would raise `ValueError`. -/
def pyParseInt (s : String) : Option Int :=
  match pyTrim s.data with
  | '-' :: rest => (digitsVal rest).map (fun n => -(n : Int))
  | '+' :: rest => (digitsVal rest).map (fun n => (n : Int))
  | cs => (digitsVal cs).map (fun n => (n : Int))

/-- The local `safe_int` of `lakehouse_list_tables_v2` (lines 120-124):
`int(val) if val is not None else 0`, with `ValueError`/`TypeError`
caught and coerced to `0`. -/
def safe_int (val : PyVal) : Int :=
  match val with
  | .vnone => 0
  | .vint n => n
  | .vbool b => if b then 1 else 0
  | .vstr s =>
    match pyParseInt s with
    | some n => n
    | none => 0

/-- The list comprehension of `lakehouse_list_tables_v2` (line 125):
`[(row[0], row[1], safe_int(row[2])) for row in results]`.  Indexing a too
-short row raises `IndexError`; the comprehension is not inside any `try`. -/
def lakehouse_list_tables_v2_rows : List PyRow → Except PyErr (List (PyVal × PyVal × PyVal))
  | [] => .ok []
  | row :: rest =>
    match pyTupleIdx row 0 with
    | .error e => .error e
    | .ok a =>
      match pyTupleIdx row 1 with
      | .error e => .error e
      | .ok b =>
        match pyTupleIdx row 2 with
        | .error e => .error e
        | .ok c =>
          match lakehouse_list_tables_v2_rows rest with
          | .error e => .error e
          | .ok out => .ok ((a, b, .vint (safe_int c)) :: out)

/-- `lakehouse_list_tables_v2` (lines 99-127): runs the fixed query through
`lakehouse_sql_query` and post-processes the rows. -/
def lakehouse_list_tables_v2 (env : Env) (world : SqlWorld) :
    Except PyErr (List (PyVal × PyVal × PyVal)) :=
  match (lakehouse_sql_query env world listTablesV2Query 30).1 with
  | .error e => .error e
  | .ok results => lakehouse_list_tables_v2_rows results

/-- The comprehension of `lakehouse_list_tables` (line 344):
`[(row[0], row[1]) for row in results]`. -/
def lakehouse_list_tables_rows : List PyRow → Except PyErr (List (PyVal × PyVal))
  | [] => .ok []
  | row :: rest =>
    match pyTupleIdx row 0 with
    | .error e => .error e
    | .ok a =>
      match pyTupleIdx row 1 with
      | .error e => .error e
      | .ok b =>
        match lakehouse_list_tables_rows rest with
        | .error e => .error e
        | .ok out => .ok ((a, b) :: out)

/-- `lakehouse_list_tables` (lines 327-346). -/
def lakehouse_list_tables (env : Env) (world : SqlWorld) :
    Except PyErr (List (PyVal × PyVal)) :=
  match (lakehouse_sql_query env world listTablesQuery 30).1 with
  | .error e => .error e
  | .ok results => lakehouse_list_tables_rows results

/-- The query text built by `lakehouse_sample_table` (lines 395-401): the
`TOP` clause uses `min(limit, 1000)`. -/
def lakehouse_sample_table_query (schema_name table_name : String) (limit : Int) : String :=
  let clamped : Int := min limit 1000
  "\n        SELECT TOP " ++ toString clamped ++ " *\n        FROM ["
    ++ schema_name ++ "].[" ++ table_name ++ "]\n    "

/-- `lakehouse_sample_table` (lines 383-402): builds the clamped `TOP` query
and hands it to `lakehouse_sql_query`. -/
def lakehouse_sample_table (env : Env) (world : SqlWorld)
    (schema_name table_name : String) (limit : Int) :
    Except PyErr (List PyRow) × ConnTrace :=
  lakehouse_sql_query env world (lakehouse_sample_table_query schema_name table_name limit) 30

/-- JSON values as `response.json()` yields them. -/
inductive JVal where
  | jnull
  | jbool (b : Bool)
  | jnum (n : Int)
  | jstr (s : String)
  | jarr (elems : List JVal)
  | jobj (fields : List (String × JVal))

/-- Python `d.get(k, default)`: only objects (dicts) have `.get`; anything
else raises `AttributeError`. -/
def jGetD (v : JVal) (k : String) (d : JVal) : Except PyErr JVal :=
  match v with
  | .jobj fs => .ok ((fs.lookup k).getD d)
  | _ => .error (.attributeError "object has no attribute get")

/-- Python subscript `v[k]` with a string key: `KeyError` when absent,
`TypeError` on a non-dict. -/
def jSub (v : JVal) (k : String) : Except PyErr JVal :=
  match v with
  | .jobj fs =>
    match fs.lookup k with
    | some x => .ok x
    | none => .error (.keyError k)
  | _ => .error (.typeError "indices must be integers")

/-- Python subscript `v[i]` with a non-negative integer index. -/
def jIdx (v : JVal) (i : Nat) : Except PyErr JVal :=
  match v with
  | .jarr xs =>
    match xs.get? i with
    | some x => .ok x
    | none => .error (.indexError "list index out of range")
  | .jstr s =>
    match s.toList.get? i with
    | some c => .ok (.jstr c.toString)
    | none => .error (.indexError "string index out of range")
  | _ => .error (.typeError "object is not subscriptable")

/-- Python `len(v)`. -/
def jLen (v : JVal) : Except PyErr Nat :=
  match v with
  | .jarr xs => .ok xs.length
  | .jobj fs => .ok fs.length
  | .jstr s => .ok s.length
  | _ => .error (.typeError "object has no len")

/-- Python `k in v` for a string `k`: dict-key membership, list membership
(equality only holds against equal strings), substring test on strings. -/
def jMem (v : JVal) (k : String) : Except PyErr Bool :=
  match v with
  | .jobj fs => .ok (fs.any (fun p => p.1 == k))
  | .jarr xs =>
    .ok (xs.any (fun x => match x with | .jstr s => s == k | _ => false))
  | .jstr s => .ok (containsSub s k)
  | _ => .error (.typeError "argument is not iterable")

/-- Python `v.lower()`: strings only; anything else raises `AttributeError`. -/
def pyLower (v : JVal) : Except PyErr String :=
  match v with
  | .jstr s => .ok (strLower s)
  | _ => .error (.attributeError "object has no attribute lower")

/-- Python truthiness of a JSON value. -/
def jFalsy : JVal → Bool
  | .jnull => true
  | .jbool b => !b
  | .jnum n => n == 0
  | .jstr s => s.isEmpty
  | .jarr xs => xs.isEmpty
  | .jobj fs => fs.isEmpty

/-- Python truthiness of `Optional` JSON (`if not dataset_id`). -/
def jFalsyOpt : Option JVal → Bool
  | none => true
  | some v => jFalsy v

/-- Rough `str()` of a JSON value; only ever interpolated into request URLs,
which the HTTP oracles below do not inspect. -/
def jvalToStr : JVal → String
  | .jstr s => s
  | .jbool b => if b then "True" else "False"
  | .jnull => "None"
  | .jnum n => toString n
  | .jarr _ => "(list)"
  | .jobj _ => "(dict)"

/-- Outcome of one `requests` call: HTTP status, `response.text`, and the
outcome of `response.json()` (which itself may raise on a non-JSON body). -/
structure HttpResp where
  status : Int
  text : String
  jsonOut : Except PyErr JVal

/-- External outcomes for `find_semantic_model_for_lakehouse`: the
`DefaultAzureCredential` token acquisition and the datasets GET. -/
structure FindWorld where
  token : Except PyErr String
  datasetsResp : Except PyErr HttpResp

/-- The body of the dataset-matching loop of `find_semantic_model_for_lakehouse`
(semantic_model_service.py, lines 48-52): first dataset whose name contains
the lakehouse name case-insensitively wins; its `"id"` entry is returned. -/
def findDatasetLoop (lakehouse_name : String) : List JVal → Except PyErr (Option JVal)
  | [] => .ok none
  | d :: rest =>
    match jGetD d "name" (.jstr "") with
    | .error e => .error e
    | .ok nameV =>
      match pyLower nameV with
      | .error e => .error e
      | .ok nameLower =>
        if containsSub nameLower (strLower lakehouse_name) then
          match jSub d "id" with
          | .error e => .error e
          | .ok idv => .ok (some idv)
        else findDatasetLoop lakehouse_name rest

/-- `find_semantic_model_for_lakehouse` (semantic_model_service.py, lines
20-52): token, datasets GET (any `requests` exception propagates - there is
no `try` here), `raise Exception(...)` on a non-200 status, then
`response.json().get("value", [])` and the first-match loop; `None` when no
dataset name contains the lakehouse name.  Python would iterate a non-list
`"value"` differently (strings yield characters, dicts yield keys), but
every such path raises before returning; we raise `TypeError` directly. -/
def find_semantic_model_for_lakehouse (world : FindWorld)
    (_workspace_id lakehouse_name : String) : Except PyErr (Option JVal) :=
  match world.token with
  | .error e => .error e
  | .ok _ =>
    match world.datasetsResp with
    | .error e => .error e
    | .ok resp =>
      if resp.status ≠ 200 then
        .error (.exception ("Failed to get datasets: " ++ toString resp.status
          ++ " - " ++ resp.text))
      else
        match resp.jsonOut with
        | .error e => .error e
        | .ok results =>
          match jGetD results "value" (.jarr []) with
          | .error e => .error e
          | .ok (.jarr datasets) => findDatasetLoop lakehouse_name datasets
          | .ok _ => .error (.typeError "object is not iterable")

/-- One parsed relationship dict, as appended by both relationship readers.
All seven keys are always present by construction. -/
structure RelDict where
  name : JVal
  from_table : JVal
  from_column : JVal
  to_table : JVal
  to_column : JVal
  cross_filtering : JVal
  is_active : JVal

/-- Row parsing in the primary path of `get_semantic_model_relationships`
(lines 100-108): `row.get` with defaults, cross-filtering read from
`"CrossFilteringBehavior"`. -/
def parseRelRowPrimary (row : JVal) : Except PyErr RelDict :=
  match jGetD row "Name" (.jstr "") with
  | .error e => .error e
  | .ok n =>
    match jGetD row "FromTable" (.jstr "") with
    | .error e => .error e
    | .ok ft =>
      match jGetD row "FromColumn" (.jstr "") with
      | .error e => .error e
      | .ok fc =>
        match jGetD row "ToTable" (.jstr "") with
        | .error e => .error e
        | .ok tt =>
          match jGetD row "ToColumn" (.jstr "") with
          | .error e => .error e
          | .ok tc =>
            match jGetD row "CrossFilteringBehavior" (.jstr "") with
            | .error e => .error e
            | .ok cf =>
              match jGetD row "IsActive" (.jbool true) with
              | .error e => .error e
              | .ok ia => .ok ⟨n, ft, fc, tt, tc, cf, ia⟩

/-- Row parsing in the DMV fallback (lines 151-159): identical except that
cross-filtering is read from `"CrossFilterDirection"`. -/
def parseRelRowDmv (row : JVal) : Except PyErr RelDict :=
  match jGetD row "Name" (.jstr "") with
  | .error e => .error e
  | .ok n =>
    match jGetD row "FromTable" (.jstr "") with
    | .error e => .error e
    | .ok ft =>
      match jGetD row "FromColumn" (.jstr "") with
      | .error e => .error e
      | .ok fc =>
        match jGetD row "ToTable" (.jstr "") with
        | .error e => .error e
        | .ok tt =>
          match jGetD row "ToColumn" (.jstr "") with
          | .error e => .error e
          | .ok tc =>
            match jGetD row "CrossFilterDirection" (.jstr "") with
            | .error e => .error e
            | .ok cf =>
              match jGetD row "IsActive" (.jbool true) with
              | .error e => .error e
              | .ok ia => .ok ⟨n, ft, fc, tt, tc, cf, ia⟩

/-- The `for row in rows` accumulation; non-list `rows` raise before any
relationship is returned (Python's iteration of strings or dicts also only
reaches `row.get` on non-dict elements and raises inside the same `try`). -/
def parseRelRows (p : JVal → Except PyErr RelDict) : JVal → Except PyErr (List RelDict)
  | .jarr rows => parseRelRowsList p rows
  | _ => .error (.typeError "object is not iterable")
where
  parseRelRowsList (p : JVal → Except PyErr RelDict) : List JVal → Except PyErr (List RelDict)
    | [] => .ok []
    | r :: rest =>
      match p r with
      | .error e => .error e
      | .ok rel =>
        match parseRelRowsList p rest with
        | .error e => .error e
        | .ok out => .ok (rel :: out)

/-- The response-shape extraction shared by both relationship readers:
`if "results" in results and len(results["results"]) > 0:` then
`rows = results["results"][0].get("tables", [{}])[0].get("rows", [])`;
an untaken condition leaves `relationships = []`. -/
def extractRelRows (results : JVal) : Except PyErr (Option JVal) :=
  match jMem results "results" with
  | .error e => .error e
  | .ok false => .ok none
  | .ok true =>
    match jSub results "results" with
    | .error e => .error e
    | .ok rv =>
      match jLen rv with
      | .error e => .error e
      | .ok n =>
        if n = 0 then .ok none
        else
          match jIdx rv 0 with
          | .error e => .error e
          | .ok r0 =>
            match jGetD r0 "tables" (.jarr [.jobj []]) with
            | .error e => .error e
            | .ok tables =>
              match jIdx tables 0 with
              | .error e => .error e
              | .ok t0 =>
                match jGetD t0 "rows" (.jarr []) with
                | .error e => .error e
                | .ok rows => .ok (some rows)

/-- External outcomes for the two relationship readers: the token
acquisition, the primary `executeQueries` POST and the DMV POST. -/
structure RestWorld where
  token : Except PyErr String
  primaryResp : Except PyErr HttpResp
  dmvResp : Except PyErr HttpResp

/-- `_get_relationships_via_dmv` (semantic_model_service.py, lines 117-165):
POST, non-200 → `[]`, otherwise parse; the whole body after the constant
headers/query/url is a `try` whose `except` returns `[]`, so no error
escapes. -/
def _get_relationships_via_dmv (world : RestWorld)
    (_workspace_id _dataset_id _token : String) : Except PyErr (List RelDict) :=
  match world.dmvResp with
  | .error _ => .ok []
  | .ok resp =>
    if resp.status ≠ 200 then .ok []
    else
      match resp.jsonOut with
      | .error _ => .ok []
      | .ok results =>
        match extractRelRows results with
        | .error _ => .ok []
        | .ok none => .ok []
        | .ok (some rows) =>
          match parseRelRows parseRelRowDmv rows with
          | .error _ => .ok []
          | .ok rels => .ok rels

/-- `get_semantic_model_relationships` (semantic_model_service.py, lines
55-114).  The token call precedes the `try`; inside it, the primary POST, a
non-200 branch that calls the DMV fallback (still inside the `try`), and the
parse; `except` returns `[]`.  The second component records whether the DMV
fallback was invoked. -/
def get_semantic_model_relationships (world : RestWorld)
    (workspace_id dataset_id : String) : Except PyErr (List RelDict) × Bool :=
  match world.token with
  | .error e => (.error e, false)
  | .ok tok =>
    match world.primaryResp with
    | .error _ => (.ok [], false)
    | .ok resp =>
      if resp.status ≠ 200 then
        match _get_relationships_via_dmv world workspace_id dataset_id tok with
        | .error _ => (.ok [], true)
        | .ok rels => (.ok rels, true)
      else
        match resp.jsonOut with
        | .error _ => (.ok [], false)
        | .ok results =>
          match extractRelRows results with
          | .error _ => (.ok [], false)
          | .ok none => (.ok [], false)
          | .ok (some rows) =>
            match parseRelRows parseRelRowPrimary rows with
            | .error _ => (.ok [], false)
            | .ok rels => (.ok rels, false)

/-- `get_lakehouse_semantic_relationships` (semantic_model_service.py, lines
168-207): two individual environment checks (each raising its own
`ValueError` - not aggregated with `validate_config`), dataset resolution,
early `[]` when falsy, then relationship fetch and tuple conversion. -/
def get_lakehouse_semantic_relationships (env : Env)
    (fw : FindWorld) (rw : RestWorld) :
    Except PyErr (List (JVal × JVal × JVal × JVal × JVal × JVal)) :=
  if truthy env.workspaceId = false then
    .error (.valueError "FABRIC_WORKSPACE_ID environment variable not set")
  else if truthy env.lakehouseName = false then
    .error (.valueError "FABRIC_LAKEHOUSE_NAME environment variable not set")
  else
    match find_semantic_model_for_lakehouse fw (env.workspaceId.getD "")
        (env.lakehouseName.getD "") with
    | .error e => .error e
    | .ok dataset_id =>
      if jFalsyOpt dataset_id then .ok []
      else
        match (get_semantic_model_relationships rw (env.workspaceId.getD "")
            (jvalToStr (dataset_id.getD .jnull))).1 with
        | .error e => .error e
        | .ok rels =>
          .ok (rels.map (fun r =>
            (r.from_table, r.from_column, r.to_table, r.to_column, r.name,
              r.cross_filtering)))

/-- External outcomes for the pyadomd-based functions of
lakehouse_sql_tool.py: whether `from pyadomd import Pyadomd` succeeds,
the outcome of entering/leaving `Pyadomd(conn_str)` with an empty body, the
outcome of the full execute-and-fetchall inside such a block, and the
outcome of the `az` CLI token subprocess in the unreachable tail. -/
structure AdomdWorld where
  pyadomdOk : Bool
  openOutcome : String → Except PyErr Unit
  fetchRel : String → String → Except PyErr (List PyRow)
  azCliToken : Except PyErr String

/-- `semantic_model_query` (lakehouse_sql_tool.py, lines 195-218): resolves
the connection string, imports pyadomd, opens `Pyadomd(conn_str)` whose body
is `pass` (the actual query logic is a stub), and falls off the end -
returning Python `None`, never a result list. -/
def semantic_model_query (env : Env) (world : AdomdWorld) (_query : String) :
    Except PyErr (Option (List PyRow)) :=
  match get_semantic_model_connection env with
  | .error e => .error e
  | .ok conn_str =>
    if world.pyadomdOk = false then
      .error (.importError "No module named pyadomd")
    else
      match world.openOutcome conn_str with
      | .error e => .error e
      | .ok _ => .ok none

/-- State of the module-level `_credential` global (lakehouse_sql_tool.py,
line 135); initialized to `None` at import. -/
structure CredState where
  credential : Option Unit
deriving DecidableEq, Repr

/-- How a Python `try`/`except` block can conclude without raising: an
explicit `return`, or falling through to the statements after the block. -/
inductive TryExit (α : Type) where
  | ret (a : α)
  | fall

/-- The DMV text sent by `semantic_model_list_relationships` (lines 242-249). -/
def smlRelQuery : String :=
  "\n        SELECT\n            r.FromTableName,\n            r.FromColumnName,\n            r.ToTableName,\n            r.ToColumnName\n        FROM $SYSTEM.TMSCHEMA_RELATIONSHIPS r\n    "

/-- The `try`/`except` of `semantic_model_list_relationships` (lines
250-259): on success the row list is returned from inside the `try`; the
`except` clause re-raises.  Neither branch falls through. -/
def smlrTryBlock (world : AdomdWorld) (conn_str : String) :
    Except PyErr (TryExit (List PyRow)) :=
  match world.fetchRel conn_str smlRelQuery with
  | .ok rows => .ok (.ret rows)
  | .error e => .error e

/-- Lines 261-295 of lakehouse_sql_tool.py: the orphaned credential/token/
connect tail that syntactically follows the `try`/`except` inside
`semantic_model_list_relationships`.  If control ever reached it, it would
assign the `_credential` global, run the `az` CLI token subprocess, and then
evaluate an f-string over `sql_endpoint`/`database` - names that are not
bound in this function, raising `NameError`. -/
def deadCredentialInit (world : AdomdWorld) (st : CredState) :
    Except PyErr (List PyRow) × CredState :=
  let st1 : CredState := if st.credential.isNone then ⟨some ()⟩ else st
  match world.azCliToken with
  | .error e => (.error e, st1)
  | .ok _ => (.error (.nameError "name sql_endpoint is not defined"), st1)

/-- `semantic_model_list_relationships` (lakehouse_sql_tool.py, lines
222-295, including the orphaned tail): connection string, pyadomd import,
the `try`/`except` block, and - only on a fall-through that never happens -
the credential-initializing tail. -/
def semantic_model_list_relationships (env : Env) (world : AdomdWorld)
    (st : CredState) : Except PyErr (List PyRow) × CredState :=
  match get_semantic_model_connection env with
  | .error e => (.error e, st)
  | .ok conn_str =>
    if world.pyadomdOk = false then
      (.error (.importError "No module named pyadomd"), st)
    else
      match smlrTryBlock world conn_str with
      | .error e => (.error e, st)
      | .ok (.ret rows) => (.ok rows, st)
      | .ok .fall => deadCredentialInit world st

/-- The `try`/`except` of `semantic_model_list_relationships` never falls
through to the statements after it. -/
theorem smlrTryBlock_no_fall (world : AdomdWorld) (conn_str : String) :
    smlrTryBlock world conn_str ≠ .ok .fall := by
  unfold smlrTryBlock
  cases world.fetchRel conn_str smlRelQuery <;> simp

/-- A fully populated environment: all four variables set and non-empty. -/
def envFull : Env :=
  ⟨some "myserver.datawarehouse.fabric.microsoft.com", some "MyLakehouse",
    some "powerbi://api.powerbi.com/v1.0/myorg/Models",
    some "11111111-2222-3333-4444-555555555555"⟩

/-- An environment with no variable set at all. -/
def envEmpty : Env := ⟨none, none, none, none⟩

/-- An environment missing the lakehouse name and the workspace id. -/
def envPartial : Env := ⟨some "myserver", none, some "powerbi://conn", none⟩

/-- An ODBC world in which every operation would succeed. -/
def sqlWorldOk : SqlWorld :=
  ⟨fun _ => .ok (), fun _ => .ok (), fun _ _ => .ok []⟩

/-- A pyadomd world in which the import, the connection and the fetch all
succeed. -/
def adomdOk : AdomdWorld :=
  ⟨true, fun _ => .ok (), fun _ _ => .ok [], .ok "azure-token"⟩

/-- A dataset-listing world returning an empty dataset list. -/
def fwOk : FindWorld :=
  ⟨.ok "token", .ok ⟨200, "", .ok (.jobj [("value", .jarr [])])⟩⟩

/-- A relationship-REST world in which both POSTs succeed with empty bodies. -/
def rwOk : RestWorld :=
  ⟨.ok "token", .ok ⟨200, "", .ok (.jobj [])⟩, .ok ⟨200, "", .ok (.jobj [])⟩⟩

/-- C1: claimed - `lakehouse_sql_query` closes the connection it opened
exactly once on every outcome, and execution or connection exceptions reach
the caller unchanged after being logged.  What the code actually does on a
fully configured environment: `_get_connection` returns `None` (its
connect logic is the unreachable tail inside
`semantic_model_list_relationships`), so `conn.timeout = timeout` raises
`AttributeError` before the `try`/`finally`; no connection is ever opened,
closed, and no query executed - for every possible ODBC world. -/
theorem spec_C1 (world : SqlWorld) :
    lakehouse_sql_query envFull world "SELECT 1" 30
      = (.error (.attributeError "NoneType object has no attribute timeout"), ⟨0, 0⟩) := by
  rfl

/-- C2: claimed - every call constructs a fresh authenticated connection,
sets the lock-wait ceiling, executes the statement and materializes all rows
before closing.  What the code actually does: in every environment, for
every ODBC world, every query and every timeout, no connection is opened or
closed and no row list is ever returned. -/
theorem spec_C2 (env : Env) (world : SqlWorld) (query : String) (t : Int) :
    (lakehouse_sql_query env world query t).2 = ⟨0, 0⟩
      ∧ ∀ rows, (lakehouse_sql_query env world query t).1 ≠ .ok rows := by
  unfold lakehouse_sql_query
  cases h : _get_connection env with
  | error e => exact ⟨rfl, fun rows => by simp⟩
  | ok oc =>
    cases oc with
    | none => exact ⟨rfl, fun rows => by simp⟩
    | some c => exact absurd h (_get_connection_never_some env c)

/-- C3: claimed - every query-returning function returns a list of tuples of
its documented arity, and raises rather than returning a partial result.
What `semantic_model_query` actually does with a full configuration, a
working pyadomd import and a connection that opens fine: its `with` body is
`pass`, so it falls off the end and returns Python `None` - never a list of
tuples of any arity. -/
theorem spec_C3 :
    semantic_model_query envFull adomdOk "EVALUATE VALUES(MyTable)" = .ok none
      ∧ ∀ rows : List PyRow,
          semantic_model_query envFull adomdOk "EVALUATE VALUES(MyTable)"
            ≠ .ok (some rows) := by
  have h1 : semantic_model_query envFull adomdOk "EVALUATE VALUES(MyTable)"
      = .ok none := by rfl
  refine ⟨h1, fun rows h => ?_⟩
  rw [h1] at h
  simp at h

/-- C7: for every schema, table and integer limit greater than 1000, the
query `lakehouse_sample_table` generates is the one generated for limit
1000: the `TOP` clause uses `min(limit, 1000)`. -/
theorem spec_C7 (schema_name table_name : String) (limit : Int)
    (h : 1000 < limit) :
    lakehouse_sample_table_query schema_name table_name limit
        = lakehouse_sample_table_query schema_name table_name 1000
      ∧ min limit 1000 = (1000 : Int) := by
  have hm : min limit 1000 = (1000 : Int) := min_eq_right (le_of_lt h)
  exact ⟨by simp [lakehouse_sample_table_query, hm], hm⟩

theorem spec_C7_witness :
    lakehouse_sample_table_query "dbo" "Patients" 5000
        = lakehouse_sample_table_query "dbo" "Patients" 1000
      ∧ min (5000 : Int) 1000 = (1000 : Int) :=
  spec_C7 "dbo" "Patients" 5000 (by norm_num)

/-- C9: the module-level `_credential` is never assigned on any reachable
path - for every environment, every pyadomd/az world and every starting
state, `semantic_model_list_relationships` leaves the global untouched
(the assigning block sits after the `try`/`except`, both of whose branches
exit), so from its import-time value `None` it stays `None`. -/
theorem spec_C9 (env : Env) (world : AdomdWorld) (st : CredState) :
    (semantic_model_list_relationships env world st).2 = st := by
  unfold semantic_model_list_relationships
  cases hc : get_semantic_model_connection env with
  | error e => rfl
  | ok conn_str =>
    cases hp : world.pyadomdOk with
    | false => simp [hp]
    | true =>
      simp only [hp]
      cases hb : smlrTryBlock world conn_str with
      | error e => simp [hb]
      | ok te =>
        cases te with
        | ret rows => simp [hb]
        | fall => exact absurd hb (smlrTryBlock_no_fall world conn_str)

/-- C10: whenever `get_semantic_model_connection` returns, its result is
exactly the value of `FABRIC_SEMANTIC_MODEL_CONNECTION`, and the
`ValueError` branch (and with it the hard-coded fallback) is unreachable,
because `validate_config` has already raised whenever that variable is
falsy. -/
theorem spec_C10 (env : Env) :
    (∀ r, get_semantic_model_connection env = .ok r →
        env.semanticModelConnection = some r)
      ∧ ∀ msg, get_semantic_model_connection env ≠ .error (.valueError msg) := by
  cases hv : validate_config env with
  | error e =>
    obtain ⟨msg, rfl⟩ := validate_config_error_shape env e hv
    constructor
    · intro r h
      unfold get_semantic_model_connection at h
      rw [hv] at h
      simp at h
    · intro msg2 h
      unfold get_semantic_model_connection at h
      rw [hv] at h
      simp at h
  | ok u =>
    obtain ⟨-, -, hc⟩ := validate_config_ok_shape env u hv
    cases hsm : env.semanticModelConnection with
    | none => rw [hsm] at hc; simp [truthy] at hc
    | some s =>
      have hse : s.isEmpty = false := by
        rw [hsm] at hc
        simpa [truthy] using hc
      constructor
      · intro r h
        unfold get_semantic_model_connection at h
        rw [hv] at h
        simp [pyOrStr, hsm, hse] at h
        rw [h]
      · intro msg h
        unfold get_semantic_model_connection at h
        rw [hv] at h
        simp [pyOrStr, hsm, hse] at h

theorem spec_C10_witness :
    envFull.semanticModelConnection
      = some "powerbi://api.powerbi.com/v1.0/myorg/Models" :=
  (spec_C10 envFull).1 "powerbi://api.powerbi.com/v1.0/myorg/Models" rfl

/-- The DMV fallback cannot raise: its whole effectful body is inside a
`try` whose `except` returns `[]`. -/
theorem dmv_always_ok (world : RestWorld) (a b c : String) :
    ∃ l, _get_relationships_via_dmv world a b c = .ok l := by
  unfold _get_relationships_via_dmv
  repeat' split
  all_goals exact ⟨_, rfl⟩

/-- C4: with the token acquired, the relationship reader never raises; a
non-200 primary status makes it attempt the DMV fallback; and a `requests`
exception on the primary POST yields `[]` (without reaching the fallback). -/
theorem spec_C4 (world : RestWorld) (ws ds tok : String)
    (htok : world.token = .ok tok) :
    isOkE (get_semantic_model_relationships world ws ds).1 = true
      ∧ (∀ resp, world.primaryResp = .ok resp → resp.status ≠ 200 →
          (get_semantic_model_relationships world ws ds).2 = true)
      ∧ (∀ e, world.primaryResp = .error e →
          get_semantic_model_relationships world ws ds = (.ok [], false)) := by
  refine ⟨?_, ?_, ?_⟩
  · unfold get_semantic_model_relationships
    rw [htok]
    cases hp : world.primaryResp with
    | error e => rfl
    | ok resp =>
      dsimp only
      repeat' split
      all_goals rfl
  · intro resp hp hst
    unfold get_semantic_model_relationships
    rw [htok, hp]
    dsimp only
    rw [if_pos hst]
    split <;> rfl
  · intro e hp
    unfold get_semantic_model_relationships
    rw [htok, hp]

/-- A DMV response body holding one relationship row. -/
def dmvJson : JVal :=
  .jobj [("results", .jarr [.jobj [("tables", .jarr [.jobj [("rows", .jarr [
    .jobj [("Name", .jstr "R1"), ("FromTable", .jstr "FactSales"),
      ("FromColumn", .jstr "ProductId"), ("ToTable", .jstr "DimProduct"),
      ("ToColumn", .jstr "ProductId"),
      ("CrossFilterDirection", .jstr "OneDirection"),
      ("IsActive", .jbool true)]])]])]])]

/-- A REST world whose primary POST comes back 500 and whose DMV POST
succeeds. -/
def rwFallback : RestWorld :=
  ⟨.ok "token", .ok ⟨500, "server error", .ok .jnull⟩, .ok ⟨200, "", .ok dmvJson⟩⟩

theorem spec_C4_witness :
    isOkE (get_semantic_model_relationships rwFallback "ws-1" "ds-1").1 = true
      ∧ (get_semantic_model_relationships rwFallback "ws-1" "ds-1").2 = true :=
  ⟨(spec_C4 rwFallback "ws-1" "ds-1" "token" rfl).1,
   (spec_C4 rwFallback "ws-1" "ds-1" "token" rfl).2.1
     ⟨500, "server error", .ok .jnull⟩ rfl (by norm_num)⟩

/-- A dataset object as the workspace listing returns it: a name and an id. -/
def mkDataset (p : String × String) : JVal :=
  .jobj [("id", .jstr p.2), ("name", .jstr p.1)]

/-- The matching loop returns the id of the first (in list order) dataset
whose lowered name contains the lowered lakehouse name, and `None` when no
name matches. -/
theorem findDatasetLoop_spec (lakehouse : String) (pairs : List (String × String)) :
    findDatasetLoop lakehouse (pairs.map mkDataset)
      = .ok ((pairs.find? (fun p => containsSub (strLower p.1) (strLower lakehouse))).map
          (fun p => JVal.jstr p.2)) := by
  induction pairs with
  | nil => rfl
  | cons p rest ih =>
    obtain ⟨n, i⟩ := p
    by_cases h : containsSub (strLower n) (strLower lakehouse) = true
    · simp [findDatasetLoop, mkDataset, jGetD, pyLower, jSub, List.find?, List.lookup, h]
    · simp [findDatasetLoop, mkDataset, jGetD, pyLower, jSub, List.find?, List.lookup, h, ih]

/-- C5: when the datasets GET succeeds with a list of name/id datasets,
`find_semantic_model_for_lakehouse` returns the id of the first dataset in
list order whose name contains the lakehouse name case-insensitively, and
`None` (without raising) when no name contains it. -/
theorem spec_C5 (world : FindWorld) (ws lakehouse tok txt : String)
    (pairs : List (String × String))
    (htok : world.token = .ok tok)
    (hresp : world.datasetsResp
      = .ok ⟨200, txt, .ok (.jobj [("value", .jarr (pairs.map mkDataset))])⟩) :
    find_semantic_model_for_lakehouse world ws lakehouse
      = .ok ((pairs.find? (fun p => containsSub (strLower p.1) (strLower lakehouse))).map
          (fun p => JVal.jstr p.2)) := by
  unfold find_semantic_model_for_lakehouse
  rw [htok, hresp]
  simp [jGetD, findDatasetLoop_spec]

/-- A workspace whose datasets are `Report_Alpha`, `Sales_Model`, `Sales_Copy`. -/
def fwSales : FindWorld :=
  ⟨.ok "token", .ok ⟨200, "",
    .ok (.jobj [("value", .jarr ([("Report_Alpha", "ds-0"), ("Sales_Model", "ds-1"),
      ("Sales_Copy", "ds-2")].map mkDataset))])⟩⟩

theorem spec_C5_witness :
    find_semantic_model_for_lakehouse fwSales "ws-1" "Sales"
        = .ok (some (.jstr "ds-1"))
      ∧ find_semantic_model_for_lakehouse fwSales "ws-1" "Inventory" = .ok none := by
  have h1 := spec_C5 fwSales "ws-1" "Sales" "token" ""
    [("Report_Alpha", "ds-0"), ("Sales_Model", "ds-1"), ("Sales_Copy", "ds-2")] rfl rfl
  have h2 := spec_C5 fwSales "ws-1" "Inventory" "token" ""
    [("Report_Alpha", "ds-0"), ("Sales_Model", "ds-1"), ("Sales_Copy", "ds-2")] rfl rfl
  have c1 : containsSub (strLower "Report_Alpha") (strLower "Sales") = false := by decide
  have c2 : containsSub (strLower "Sales_Model") (strLower "Sales") = true := by decide
  have d1 : containsSub (strLower "Report_Alpha") (strLower "Inventory") = false := by decide
  have d2 : containsSub (strLower "Sales_Model") (strLower "Inventory") = false := by decide
  have d3 : containsSub (strLower "Sales_Copy") (strLower "Inventory") = false := by decide
  rw [h1, h2]
  constructor <;> simp [List.find?, c1, c2, d1, d2, d3]

/-- C6 counterexample: with all four variables unset, the aggregated error of
`validate_config` names only three variables - `FABRIC_WORKSPACE_ID` is
absent from it, so the one aggregated error does not name every absent
required variable. -/
theorem spec_C6_counterexample :
    validate_config envEmpty = .error (.runtimeError
      "Missing required environment variables: FABRIC_SQL_ENDPOINT, FABRIC_LAKEHOUSE_NAME, FABRIC_SEMANTIC_MODEL_CONNECTION. Please set them in your .env file.")
      ∧ containsSub
          "Missing required environment variables: FABRIC_SQL_ENDPOINT, FABRIC_LAKEHOUSE_NAME, FABRIC_SEMANTIC_MODEL_CONNECTION. Please set them in your .env file."
          "FABRIC_WORKSPACE_ID" = false
      ∧ envEmpty.workspaceId = none := by
  refine ⟨rfl, by decide, rfl⟩

/-- C6 as amended: `validate_config` succeeds exactly when its three
variables are truthy; when it raises, the aggregated message names exactly
the absent ones among those three and never `FABRIC_WORKSPACE_ID`; the
workspace id is checked separately by `get_lakehouse_semantic_relationships`,
which raises its own `ValueError` naming only that variable. -/
theorem spec_C6 (env : Env) (fw : FindWorld) (rw : RestWorld) :
    (validate_config env = .ok () ↔
      (truthy env.sqlEndpoint = true ∧ truthy env.lakehouseName = true
        ∧ truthy env.semanticModelConnection = true))
      ∧ (∀ msg, validate_config env = .error (.runtimeError msg) →
          ((containsSub msg "FABRIC_SQL_ENDPOINT" = true ↔ truthy env.sqlEndpoint = false)
            ∧ (containsSub msg "FABRIC_LAKEHOUSE_NAME" = true ↔ truthy env.lakehouseName = false)
            ∧ (containsSub msg "FABRIC_SEMANTIC_MODEL_CONNECTION" = true
                ↔ truthy env.semanticModelConnection = false)
            ∧ containsSub msg "FABRIC_WORKSPACE_ID" = false))
      ∧ (truthy env.workspaceId = false →
          get_lakehouse_semantic_relationships env fw rw
            = .error (.valueError "FABRIC_WORKSPACE_ID environment variable not set")) := by
  refine ⟨validate_config_ok_iff env, ?_, ?_⟩
  · intro msg h
    cases hs : truthy env.sqlEndpoint <;> cases hl : truthy env.lakehouseName <;>
      cases hc : truthy env.semanticModelConnection <;>
        simp [validate_config, hs, hl, hc] at h <;> subst h <;> decide
  · intro hw
    unfold get_lakehouse_semantic_relationships
    simp [hw]

theorem spec_C6_witness :
    containsSub
        "Missing required environment variables: FABRIC_LAKEHOUSE_NAME. Please set them in your .env file."
        "FABRIC_WORKSPACE_ID" = false
      ∧ get_lakehouse_semantic_relationships envPartial fwOk rwOk
          = .error (.valueError "FABRIC_WORKSPACE_ID environment variable not set") :=
  ⟨((spec_C6 envPartial fwOk rwOk).2.1
      "Missing required environment variables: FABRIC_LAKEHOUSE_NAME. Please set them in your .env file."
      rfl).2.2.2,
   (spec_C6 envPartial fwOk rwOk).2.2 rfl⟩

/-- C8 counterexample: a row with fewer than three cells - a missing count
value - makes `lakehouse_list_tables_v2`'s comprehension raise `IndexError`
instead of coercing the missing count to `0`, refuting the claim's
"null, missing, or unparseable count value is coerced to 0" on its
"missing" case. -/
theorem spec_C8_counterexample :
    lakehouse_list_tables_v2_rows [[.vstr "dbo", .vstr "Customers"]]
      = .error (.indexError "tuple index out of range") := by
  rfl

/-- The comprehension maps every row of arity at least three to the pair of
its first two cells and the `safe_int`-coerced third cell. -/
theorem listTablesV2_rows_ok : ∀ (results : List PyRow),
    (∀ row ∈ results, 3 ≤ row.length) →
      lakehouse_list_tables_v2_rows results
        = .ok (results.map (fun row =>
            (row.getD 0 .vnone, row.getD 1 .vnone,
              .vint (safe_int (row.getD 2 .vnone))))) := by
  intro results
  induction results with
  | nil => intro _; rfl
  | cons row rest ih =>
    intro h
    have hrow : 3 ≤ row.length := h row (by simp)
    have hrest := ih (fun r hr => h r (by simp [hr]))
    rcases row with _ | ⟨a, _ | ⟨b, _ | ⟨c, tail⟩⟩⟩
    · simp at hrow
    · simp at hrow
    · simp at hrow
    · simp [lakehouse_list_tables_v2_rows, pyTupleIdx, hrest, List.getD]

/-- C8 as amended: provided every row carries at least three cells (which
the fixed three-column query guarantees for genuine result sets), every
returned tuple holds an integer (`vint`) row count in its third position,
with a `None` third cell and an unparseable string third cell both coerced
to `0`; a shorter row instead raises `IndexError` (see the counterexample). -/
theorem spec_C8 (results : List PyRow)
    (h : ∀ row ∈ results, 3 ≤ row.length) :
    lakehouse_list_tables_v2_rows results
        = .ok (results.map (fun row =>
            (row.getD 0 .vnone, row.getD 1 .vnone,
              .vint (safe_int (row.getD 2 .vnone)))))
      ∧ safe_int .vnone = 0
      ∧ safe_int (.vstr "not a number") = 0 :=
  ⟨listTablesV2_rows_ok results h, rfl, by decide⟩

theorem spec_C8_witness :
    lakehouse_list_tables_v2_rows
        [[.vstr "dbo", .vstr "Customers", .vnone],
          [.vstr "dbo", .vstr "Orders", .vstr "xyz"],
          [.vstr "dbo", .vstr "Items", .vint 42]]
      = .ok [(.vstr "dbo", .vstr "Customers", .vint 0),
          (.vstr "dbo", .vstr "Orders", .vint 0),
          (.vstr "dbo", .vstr "Items", .vint 42)] := by
  have h := spec_C8
    [[.vstr "dbo", .vstr "Customers", .vnone],
      [.vstr "dbo", .vstr "Orders", .vstr "xyz"],
      [.vstr "dbo", .vstr "Items", .vint 42]]
    (by intro row hr; simp at hr; rcases hr with rfl | rfl | rfl <;> decide)
  rw [h.1]
  rfl
